import Mathlib

/-!
Verification of the survey-cleaning and analysis pipeline in
`master_analysis.py`: the per-condition filter chain, the composite
Flow score, the per-stage drop-count report, and the control flow of
the top-level execution (hypothesis tests, exception handling, and the
exploratory moderator section).

Machine data is embedded shallowly: a raw CSV cell is either a numeric
value or non-numeric text; coercion (pandas to_numeric with coerce) becomes a
total function into `Option ℚ` (`none` is pandas `NaN`); comparisons
against a missing value are `false`, matching pandas semantics where
any comparison with `NaN` yields `False`; `RecordedDate` is an integer
timestamp (dates written `yyyymmdd`, preserving calendar order).
-/

namespace MasterAnalysis

/-- A raw CSV cell: a value that `pd.to_numeric` parses, or text it cannot. -/
inductive RawCell where
  | num (q : ℚ)
  | text (s : String)
deriving DecidableEq

/-- Cell coercion, pandas to_numeric with errors=coerce: numeric stays,
garbage becomes missing (NaN becomes none); it never raises (total function). -/
def to_numeric : RawCell → Option ℚ
  | .num q => some q
  | .text _ => none

/-- One respondent row as loaded (after `read_csv` / `to_datetime`):
`RecordedDate` already parsed to a comparable timestamp, all other
columns still raw cells. -/
structure RawRow where
  recordedDate : ℤ
  q2_1 : RawCell
  q2_2 : RawCell
  q2_3 : RawCell
  q2_4 : RawCell
  q2_5 : RawCell
  q2_6 : RawCell
  q2_7 : RawCell
  q2_8 : RawCell
  q2_9 : RawCell
  q2_10 : RawCell
  q1 : RawCell
  q3 : RawCell
  q4 : RawCell
  q5 : RawCell
  duration : RawCell
  finished : RawCell
deriving DecidableEq

/-- A row after the numeric-coercion loop: the columns in
`cols_to_numeric` (flow items, `Q2_8`, `Q1`, `Duration (in seconds)`,
`Finished`, `Q5`) are `Option ℚ`; `Q3` and `Q4` are not coerced. -/
structure Row where
  recordedDate : ℤ
  q2_1 : Option ℚ
  q2_2 : Option ℚ
  q2_3 : Option ℚ
  q2_4 : Option ℚ
  q2_5 : Option ℚ
  q2_6 : Option ℚ
  q2_7 : Option ℚ
  q2_8 : Option ℚ
  q2_9 : Option ℚ
  q2_10 : Option ℚ
  q1 : Option ℚ
  q3 : RawCell
  q4 : RawCell
  q5 : Option ℚ
  duration : Option ℚ
  finished : Option ℚ
deriving DecidableEq

/-- The coercion loop `for col in cols_to_numeric: df[col] = pd.to_numeric(...)`. -/
def coerceRow (r : RawRow) : Row :=
  ⟨r.recordedDate,
   to_numeric r.q2_1, to_numeric r.q2_2, to_numeric r.q2_3,
   to_numeric r.q2_4, to_numeric r.q2_5, to_numeric r.q2_6,
   to_numeric r.q2_7, to_numeric r.q2_8, to_numeric r.q2_9,
   to_numeric r.q2_10,
   to_numeric r.q1, r.q3, r.q4, to_numeric r.q5,
   to_numeric r.duration, to_numeric r.finished⟩

-- CONFIGURATION constants of master_analysis.py

def ATTENTION_CHECK_TARGET : ℚ := 5

def MIN_DURATION_SECONDS : ℚ := 90

def SHOPPING_COL : String := "Q5"

def MIN_SHOPPING_FREQ : ℚ := 6

def AUDIO_TARGET_VAL : ℚ := 3

def SILENT_TARGET_VAL : ℚ := 5

def flow_items : List String :=
  ["Q2_1", "Q2_2", "Q2_3", "Q2_4", "Q2_5", "Q2_6", "Q2_7", "Q2_9", "Q2_10"]

def attn_col : String := "Q2_8"

def manip_col : String := "Q1"

/-- Column access `df_clean[col]` on a coerced row. `Q3`/`Q4` are not in
`cols_to_numeric`, and no numeric filter reads them, so they (like any
unknown column) yield no numeric value here. -/
def getCol (r : Row) : String → Option ℚ
  | "Q2_1" => r.q2_1
  | "Q2_2" => r.q2_2
  | "Q2_3" => r.q2_3
  | "Q2_4" => r.q2_4
  | "Q2_5" => r.q2_5
  | "Q2_6" => r.q2_6
  | "Q2_7" => r.q2_7
  | "Q2_8" => r.q2_8
  | "Q2_9" => r.q2_9
  | "Q2_10" => r.q2_10
  | "Q1" => r.q1
  | "Q5" => r.q5
  | "Duration (in seconds)" => r.duration
  | "Finished" => r.finished
  | _ => none

/-- Pandas `series == v` on a possibly-missing value: `NaN == v` is `False`. -/
def optEq (x : Option ℚ) (v : ℚ) : Bool :=
  match x with
  | some q => decide (q = v)
  | none => false

/-- Pandas `series >= v`: `NaN >= v` is `False`. -/
def optGe (x : Option ℚ) (v : ℚ) : Bool :=
  match x with
  | some q => decide (v ≤ q)
  | none => false

/-- Pandas `series <= v`: `NaN <= v` is `False`. -/
def optLe (x : Option ℚ) (v : ℚ) : Bool :=
  match x with
  | some q => decide (q ≤ v)
  | none => false

-- The filter chain, one definition per stage of clean_and_process.

/-- Date stage: keep rows whose RecordedDate is at least the cutoff
(runs on raw rows, before the coercion loop). -/
def dateFilter (cutoff : ℤ) (raws : List RawRow) : List RawRow :=
  raws.filter (fun r => decide (cutoff ≤ r.recordedDate))

/-- Completion stage: keep rows whose Finished column equals 1. -/
def completionFilter (rows : List Row) : List Row :=
  rows.filter (fun r => optEq (getCol r "Finished") 1)

/-- Duration stage: keep rows whose duration column is at least
MIN_DURATION_SECONDS. -/
def durationFilter (rows : List Row) : List Row :=
  rows.filter (fun r => optGe (getCol r "Duration (in seconds)") MIN_DURATION_SECONDS)

/-- Attention stage: keep rows whose attn_col value equals
ATTENTION_CHECK_TARGET. -/
def attentionFilter (rows : List Row) : List Row :=
  rows.filter (fun r => optEq (getCol r attn_col) ATTENTION_CHECK_TARGET)

/-- Manipulation stage: keep rows whose manip_col value equals the
condition-specific target. -/
def manipulationFilter (target : ℚ) (rows : List Row) : List Row :=
  rows.filter (fun r => optEq (getCol r manip_col) target)

/-- Frequency stage: keep rows whose SHOPPING_COL value is at most
MIN_SHOPPING_FREQ. -/
def frequencyFilter (rows : List Row) : List Row :=
  rows.filter (fun r => optLe (getCol r SHOPPING_COL) MIN_SHOPPING_FREQ)

-- The Flow score.

/-- Values of a row in the flow_items columns. -/
def itemVals (r : Row) : List (Option ℚ) :=
  flow_items.map (getCol r)

/-- The non-missing flow-item values of a row (pandas `mean` skips `NaN`). -/
def availableVals (r : Row) : List ℚ :=
  (itemVals r).filterMap id

/-- Row-wise mean over the flow_items columns, as pandas computes it:
mean of the available item values, NaN (none) when all nine are missing. -/
def flow_Score (r : Row) : Option ℚ :=
  let xs := availableVals r
  if xs.isEmpty then none else some (xs.sum / (xs.length : ℚ))

/-- A cleaned row after the Flow_Score and Condition columns are added. -/
structure ScoredRow where
  row : Row
  Flow_Score : Option ℚ
  Condition : String
deriving DecidableEq

def scoreRow (label : String) (r : Row) : ScoredRow :=
  ⟨r, flow_Score r, label⟩

/-- The counts printed by the per-condition cleaning report. -/
structure Report where
  n_original : ℕ
  dropped_pilot : ℕ
  dropped_speed : ℕ
  dropped_attn : ℕ
  dropped_manip : ℕ
  dropped_freq : ℕ
  final_n : ℕ
deriving DecidableEq

-- Named intermediate states of the chain (used to state invariants).

def rowsAfterDate (cutoff : ℤ) (raws : List RawRow) : List Row :=
  (dateFilter cutoff raws).map coerceRow

def afterCompletion (cutoff : ℤ) (raws : List RawRow) : List Row :=
  completionFilter (rowsAfterDate cutoff raws)

def afterDuration (cutoff : ℤ) (raws : List RawRow) : List Row :=
  durationFilter (afterCompletion cutoff raws)

def afterAttention (cutoff : ℤ) (raws : List RawRow) : List Row :=
  attentionFilter (afterDuration cutoff raws)

def afterManipulation (cutoff : ℤ) (target : ℚ) (raws : List RawRow) : List Row :=
  manipulationFilter target (afterAttention cutoff raws)

def afterFrequency (cutoff : ℤ) (target : ℚ) (raws : List RawRow) : List Row :=
  frequencyFilter (afterManipulation cutoff target raws)

/-- The cleaning routine clean_and_process, from the parsed row list of
its file:
date filter, coercion, the five numeric filters in source order,
Flow score and condition tag, and the report counts exactly as the
source computes them (each dropped count is n_before minus n_after). -/
def clean_and_process (raws : List RawRow) (label : String)
    (start_date_cutoff : ℤ) (target_manipulation_val : ℚ) :
    List ScoredRow × Report :=
  let n_original := raws.length
  let afterDate := dateFilter start_date_cutoff raws
  let dropped_pilot := n_original - afterDate.length
  let df0 := afterDate.map coerceRow
  let df1 := completionFilter df0
  let n_before_speed := df1.length
  let df2 := durationFilter df1
  let dropped_speed := n_before_speed - df2.length
  let n_before_attn := df2.length
  let df3 := attentionFilter df2
  let dropped_attn := n_before_attn - df3.length
  let n_before_manip := df3.length
  let df4 := manipulationFilter target_manipulation_val df3
  let dropped_manip := n_before_manip - df4.length
  let n_before_freq := df4.length
  let df5 := frequencyFilter df4
  let dropped_freq := n_before_freq - df5.length
  (df5.map (scoreRow label),
   ⟨n_original, dropped_pilot, dropped_speed, dropped_attn, dropped_manip,
    dropped_freq, df5.length⟩)

/-- The print statements of the cleaning report, in source order
(label of each line, the count it prints). -/
def reportLines (rep : Report) : List (String × ℕ) :=
  [("Original N", rep.n_original),
   ("Date Filter Removed", rep.dropped_pilot),
   ("Speedsters Removed", rep.dropped_speed),
   ("Infrequent Shoppers Removed", rep.dropped_freq),
   ("Attention Check Failed", rep.dropped_attn),
   ("Manipulation Check Failed", rep.dropped_manip),
   ("FINAL VALID N", rep.final_n)]

-- The two invocations in section 3 (EXECUTION).

/-- Silent start date cutoff, 2026-01-01, as a comparable integer date. -/
def silent_cutoff : ℤ := 20260101

/-- Auditory start date cutoff, 2026-02-01, as a comparable integer date. -/
def audio_cutoff : ℤ := 20260201

def run_silent (raws : List RawRow) : List ScoredRow × Report :=
  clean_and_process raws "Silent" silent_cutoff SILENT_TARGET_VAL

def run_audio (raws : List RawRow) : List ScoredRow × Report :=
  clean_and_process raws "Auditory" audio_cutoff AUDIO_TARGET_VAL

-- The top-level execution (sections 3 and the exploratory moderator
-- analysis), modelled as explicit control flow over which external
-- library calls raise.

/-- How the whole script terminates. -/
inductive Outcome where
  | graceful
  | unhandledCrash
deriving DecidableEq

/-- One run of the script: the two input tables, plus which external
library calls raise an exception this run (`mannwhitneyu`, `levene`,
the violin plot inside the `try` block, the two `smf.ols` fits, and the
unguarded statements of the moderator section: variable preparation and
the interaction plots). -/
structure RunInput where
  silentRaws : List RawRow
  audioRaws : List RawRow
  h1Raises : Bool
  h2Raises : Bool
  violinRaises : Bool
  genderFitRaises : Bool
  freqFitRaises : Bool
  moderatorUnguardedRaises : Bool
deriving DecidableEq

/-- The observable trace of one top-level run. -/
structure RunResult where
  insufficientMsg : Bool
  h1Invoked : Bool
  h2Invoked : Bool
  mainCaught : Bool
  dfAllSet : Bool
  dfAllLen : ℕ
  moderatorRan : Bool
  moderatorMsg : Bool
  genderFitCaught : Bool
  freqFitCaught : Bool
  outcome : Outcome
deriving DecidableEq

/-- The top-level execution of `master_analysis.py`: inside `try`, clean
both conditions; if either final sample has fewer than 2 rows print the
insufficient-data message, else build `df_all` and run H1 then H2 then
the violin plot (any exception in the `try` block is caught by the one
`except`, which prints the message). After the `try`/`except`, the
moderator section runs iff `df_all` is in `locals()` and has more than
10 rows; its two model fits are each wrapped in their own
`try`/`except`, but its variable preparation and interaction plots are
not wrapped, so an exception there is unhandled. -/
def runScript (inp : RunInput) : RunResult :=
  let nSilent := (run_silent inp.silentRaws).1.length
  let nAudio := (run_audio inp.audioRaws).1.length
  if nSilent < 2 ∨ nAudio < 2 then
    ⟨true, false, false, false, false, 0, false, false, false, false, .graceful⟩
  else
    let dfLen := nSilent + nAudio
    let modRuns := decide (10 < dfLen)
    ⟨false, true, !inp.h1Raises,
     inp.h1Raises || inp.h2Raises || inp.violinRaises,
     true, dfLen, modRuns, modRuns,
     modRuns && inp.genderFitRaises, modRuns && inp.freqFitRaises,
     if modRuns && inp.moderatorUnguardedRaises then .unhandledCrash else .graceful⟩

-- Concrete rows and inputs used to evaluate the definitions.

/-- A raw row with every flow item 4, attention/manipulation/frequency,
duration and completion as given, age 30, gender 1. -/
def mkRaw (d : ℤ) (fin dur att man freq : ℚ) : RawRow :=
  ⟨d, .num 4, .num 4, .num 4, .num 4, .num 4, .num 4, .num 4, .num att,
   .num 4, .num 4, .num man, .num 30, .num 1, .num freq, .num dur, .num fin⟩

/-- Passes every Silent-condition filter. -/
def goodSilentRaw : RawRow := mkRaw 20260315 1 120 5 5 3

/-- Passes every Auditory-condition filter (manipulation answer 3). -/
def goodAudioRaw : RawRow := mkRaw 20260315 1 120 5 3 3

/-- Fails exactly the completion filter (`Finished == 0`). -/
def unfinishedRaw : RawRow := mkRaw 20260315 0 120 5 5 3

/-- Input table for the completion-stage reporting counterexample. -/
def c3Raws : List RawRow := [goodSilentRaw, unfinishedRaw]

/-- The report the Silent cleaning pass produces on `c3Raws`. -/
def c3Report : Report :=
  (clean_and_process c3Raws "Silent" silent_cutoff SILENT_TARGET_VAL).2

/-- A coerced row whose value is missing in every coerced column. -/
def noneRow : Row :=
  ⟨0, none, none, none, none, none, none, none, none, none, none,
   none, .num 0, .num 0, none, none, none⟩

/-- A coerced row with all nine flow items present
(1,2,3,4,5,6,7 and 6,7; the attention column `Q2_8` is 5). -/
def fullItemsRow : Row :=
  ⟨20260315, some 1, some 2, some 3, some 4, some 5, some 6, some 7, some 5,
   some 6, some 7, some 5, .num 30, .num 1, some 3, some 120, some 1⟩

/-- A coerced row with a single flow item present (`Q2_1 = 3`). -/
def oneItemRow : Row :=
  ⟨0, some 3, none, none, none, none, none, none, none, none, none,
   none, .num 0, .num 0, none, none, none⟩

/-- Twelve valid respondents (six per condition) and an exception in
the plotting of the moderator section. -/
def c7Input : RunInput :=
  ⟨List.replicate 6 goodSilentRaw, List.replicate 6 goodAudioRaw,
   false, false, false, false, false, true⟩

/-- Empty input tables: both final samples are empty. -/
def c2Input : RunInput :=
  ⟨[], [], false, false, false, false, false, false⟩

/-- Two valid respondents per condition: both samples reach size 2 but
the combined table has only 4 rows. -/
def c10Input : RunInput :=
  ⟨List.replicate 2 goodSilentRaw, List.replicate 2 goodAudioRaw,
   false, false, false, false, false, false⟩

-- Theorems

-- Reading a filtered column of a coerced row gives the coercion of the
-- corresponding raw cell.

theorem coerce_getCol_finished (raw : RawRow) :
    getCol (coerceRow raw) "Finished" = to_numeric raw.finished := rfl

theorem coerce_getCol_duration (raw : RawRow) :
    getCol (coerceRow raw) "Duration (in seconds)" = to_numeric raw.duration := rfl

theorem coerce_getCol_attn (raw : RawRow) :
    getCol (coerceRow raw) attn_col = to_numeric raw.q2_8 := rfl

theorem coerce_getCol_manip (raw : RawRow) :
    getCol (coerceRow raw) manip_col = to_numeric raw.q1 := rfl

theorem coerce_getCol_shopping (raw : RawRow) :
    getCol (coerceRow raw) SHOPPING_COL = to_numeric raw.q5 := rfl

/-- The filter chain of `clean_and_process` keeps exactly the rows
satisfying the conjunction of all six stage predicates. -/
theorem survivors_eq (raws : List RawRow) (label : String) (cutoff : ℤ) (target : ℚ) :
    (clean_and_process raws label cutoff target).1 =
      (raws.filter (fun raw =>
          decide (cutoff ≤ raw.recordedDate) &&
          (optEq (to_numeric raw.finished) 1 &&
           optGe (to_numeric raw.duration) MIN_DURATION_SECONDS &&
           optEq (to_numeric raw.q2_8) ATTENTION_CHECK_TARGET &&
           optEq (to_numeric raw.q1) target &&
           optLe (to_numeric raw.q5) MIN_SHOPPING_FREQ))).map
        (fun raw => scoreRow label (coerceRow raw)) := by
  simp only [clean_and_process, completionFilter, durationFilter, attentionFilter,
    manipulationFilter, frequencyFilter, dateFilter, List.filter_filter,
    List.filter_map, List.map_map]
  refine congrArg _ (List.filter_congr ?_)
  intro x _
  simp only [Function.comp_apply, coerce_getCol_finished, coerce_getCol_duration,
    coerce_getCol_attn, coerce_getCol_manip, coerce_getCol_shopping]
  cases h1 : decide (cutoff ≤ x.recordedDate) <;>
    cases h2 : optEq (to_numeric x.finished) 1 <;>
      cases h3 : optGe (to_numeric x.duration) MIN_DURATION_SECONDS <;>
        cases h4 : optEq (to_numeric x.q2_8) ATTENTION_CHECK_TARGET <;>
          cases h5 : optEq (to_numeric x.q1) target <;>
            cases h6 : optLe (to_numeric x.q5) MIN_SHOPPING_FREQ <;>
              rfl

/-- Claim C1: a record of the input table of a condition survives the full
filter chain if and only if it satisfies all stage predicates
simultaneously — timestamp ≥ the cutoff of that condition, completion flag
`Finished == 1`, duration ≥ 90, attention check `Q2_8 == 5`,
manipulation check `Q1 ==` the condition-specific target (5 for
Silent, 3 for Auditory), and shopping frequency `Q5 ≤ 6`. -/
theorem c1_survives_iff_all_predicates (silentRaws audioRaws : List RawRow) :
    (run_silent silentRaws).1 =
      (silentRaws.filter (fun raw =>
          decide (silent_cutoff ≤ raw.recordedDate) &&
          (optEq (to_numeric raw.finished) 1 &&
           optGe (to_numeric raw.duration) 90 &&
           optEq (to_numeric raw.q2_8) 5 &&
           optEq (to_numeric raw.q1) 5 &&
           optLe (to_numeric raw.q5) 6))).map
        (fun raw => scoreRow "Silent" (coerceRow raw)) ∧
    (run_audio audioRaws).1 =
      (audioRaws.filter (fun raw =>
          decide (audio_cutoff ≤ raw.recordedDate) &&
          (optEq (to_numeric raw.finished) 1 &&
           optGe (to_numeric raw.duration) 90 &&
           optEq (to_numeric raw.q2_8) 5 &&
           optEq (to_numeric raw.q1) 3 &&
           optLe (to_numeric raw.q5) 6))).map
        (fun raw => scoreRow "Auditory" (coerceRow raw)) ∧
    SILENT_TARGET_VAL = 5 ∧ AUDIO_TARGET_VAL = 3 ∧
    ATTENTION_CHECK_TARGET = 5 ∧ MIN_DURATION_SECONDS = 90 ∧ MIN_SHOPPING_FREQ = 6 :=
  ⟨survivors_eq silentRaws "Silent" silent_cutoff SILENT_TARGET_VAL,
   survivors_eq audioRaws "Auditory" audio_cutoff AUDIO_TARGET_VAL,
   rfl, rfl, rfl, rfl, rfl⟩

/-- The report of `clean_and_process`, written with the named
intermediate stages (definitional unfolding). -/
theorem report_eq (raws : List RawRow) (label : String) (cutoff : ℤ) (target : ℚ) :
    (clean_and_process raws label cutoff target).2 =
      ⟨raws.length,
       raws.length - (dateFilter cutoff raws).length,
       (afterCompletion cutoff raws).length - (afterDuration cutoff raws).length,
       (afterDuration cutoff raws).length - (afterAttention cutoff raws).length,
       (afterAttention cutoff raws).length - (afterManipulation cutoff target raws).length,
       (afterManipulation cutoff target raws).length -
         (afterFrequency cutoff target raws).length,
       (afterFrequency cutoff target raws).length⟩ := rfl

/-- Claim C4: every filter stage only narrows its input — its output is
a sublist (hence a sub-multiset) of its input, its output count is at
most its input count — and every removed count the report records
satisfies `removed + after = before` exactly (so `removed = before −
after ≥ 0` without truncation). -/
theorem c4_stages_narrow (cutoff : ℤ) (target : ℚ) (raws : List RawRow)
    (rows : List Row) (label : String) :
    (dateFilter cutoff raws).Sublist raws ∧
    (dateFilter cutoff raws).length ≤ raws.length ∧
    (completionFilter rows).Sublist rows ∧
    (completionFilter rows).length ≤ rows.length ∧
    (durationFilter rows).Sublist rows ∧
    (durationFilter rows).length ≤ rows.length ∧
    (attentionFilter rows).Sublist rows ∧
    (attentionFilter rows).length ≤ rows.length ∧
    (manipulationFilter target rows).Sublist rows ∧
    (manipulationFilter target rows).length ≤ rows.length ∧
    (frequencyFilter rows).Sublist rows ∧
    (frequencyFilter rows).length ≤ rows.length ∧
    ((clean_and_process raws label cutoff target).2.dropped_pilot +
       (dateFilter cutoff raws).length = raws.length) ∧
    ((clean_and_process raws label cutoff target).2.dropped_speed +
       (afterDuration cutoff raws).length = (afterCompletion cutoff raws).length) ∧
    ((clean_and_process raws label cutoff target).2.dropped_attn +
       (afterAttention cutoff raws).length = (afterDuration cutoff raws).length) ∧
    ((clean_and_process raws label cutoff target).2.dropped_manip +
       (afterManipulation cutoff target raws).length = (afterAttention cutoff raws).length) ∧
    ((clean_and_process raws label cutoff target).2.dropped_freq +
       (afterFrequency cutoff target raws).length =
         (afterManipulation cutoff target raws).length) ∧
    (clean_and_process raws label cutoff target).2.final_n =
      (afterFrequency cutoff target raws).length := by
  refine ⟨List.filter_sublist raws, (List.filter_sublist raws).length_le,
    List.filter_sublist rows, (List.filter_sublist rows).length_le,
    List.filter_sublist rows, (List.filter_sublist rows).length_le,
    List.filter_sublist rows, (List.filter_sublist rows).length_le,
    List.filter_sublist rows, (List.filter_sublist rows).length_le,
    List.filter_sublist rows, (List.filter_sublist rows).length_le,
    ?_, ?_, ?_, ?_, ?_, rfl⟩
  · exact Nat.sub_add_cancel (List.filter_sublist raws).length_le
  · exact Nat.sub_add_cancel (List.filter_sublist (afterCompletion cutoff raws)).length_le
  · exact Nat.sub_add_cancel (List.filter_sublist (afterDuration cutoff raws)).length_le
  · exact Nat.sub_add_cancel (List.filter_sublist (afterAttention cutoff raws)).length_le
  · exact Nat.sub_add_cancel
      (List.filter_sublist (afterManipulation cutoff target raws)).length_le

/-- Claim C3 counterexample: on a two-row Silent table where one row
fails only the completion flag, the removed counts the report records
(date, duration, attention, manipulation, frequency) sum to 0 while
original N minus final N is 1 — the removal by the completion stage is counted
by no recorded stage, so not every stage of the chain has its removed
count recorded and printed. -/
theorem c3_counterexample :
    c3Report.dropped_pilot + c3Report.dropped_speed + c3Report.dropped_attn +
      c3Report.dropped_manip + c3Report.dropped_freq ≠
      c3Report.n_original - c3Report.final_n := by decide

/-- Claim C3 (amended): every filter stage except the completion filter
records its entering and removed counts; the report prints the original
N, removed counts for the date, duration, frequency, attention-check
and manipulation-check stages, and the final N; the removals of the
completion stage are recorded nowhere (the five recorded removed counts
plus the completion-stage removals and the final N account exactly for the
original N). -/
theorem c3_amended_report (raws : List RawRow) (label : String)
    (cutoff : ℤ) (target : ℚ) :
    (reportLines (clean_and_process raws label cutoff target).2).map Prod.fst =
      ["Original N", "Date Filter Removed", "Speedsters Removed",
       "Infrequent Shoppers Removed", "Attention Check Failed",
       "Manipulation Check Failed", "FINAL VALID N"] ∧
    (clean_and_process raws label cutoff target).2.dropped_pilot +
      ((rowsAfterDate cutoff raws).length - (afterCompletion cutoff raws).length) +
      (clean_and_process raws label cutoff target).2.dropped_speed +
      (clean_and_process raws label cutoff target).2.dropped_attn +
      (clean_and_process raws label cutoff target).2.dropped_manip +
      (clean_and_process raws label cutoff target).2.dropped_freq +
      (clean_and_process raws label cutoff target).2.final_n =
      (clean_and_process raws label cutoff target).2.n_original := by
  refine ⟨rfl, ?_⟩
  have hdate : (dateFilter cutoff raws).length ≤ raws.length :=
    (List.filter_sublist raws).length_le
  have hmap : (rowsAfterDate cutoff raws).length = (dateFilter cutoff raws).length := by
    simp [rowsAfterDate]
  have hcomp : (afterCompletion cutoff raws).length ≤ (rowsAfterDate cutoff raws).length :=
    (List.filter_sublist (rowsAfterDate cutoff raws)).length_le
  have hdur : (afterDuration cutoff raws).length ≤ (afterCompletion cutoff raws).length :=
    (List.filter_sublist (afterCompletion cutoff raws)).length_le
  have hattn : (afterAttention cutoff raws).length ≤ (afterDuration cutoff raws).length :=
    (List.filter_sublist (afterDuration cutoff raws)).length_le
  have hmanip : (afterManipulation cutoff target raws).length ≤
      (afterAttention cutoff raws).length :=
    (List.filter_sublist (afterAttention cutoff raws)).length_le
  have hfreq : (afterFrequency cutoff target raws).length ≤
      (afterManipulation cutoff target raws).length :=
    (List.filter_sublist (afterManipulation cutoff target raws)).length_le
  rw [report_eq]
  simp only []
  omega

/-- Claim C5: numeric coercion turns non-numeric text into a missing
value rather than raising (it is a total function), and a row whose
value in a filtered column is missing is excluded by that filter,
because an equality or threshold comparison against a missing value is
never true. -/
theorem c5_missing_excluded (rows : List Row) (r : Row) (s : String) (target : ℚ) :
    to_numeric (RawCell.text s) = none ∧
    (getCol r "Finished" = none → r ∉ completionFilter rows) ∧
    (getCol r "Duration (in seconds)" = none → r ∉ durationFilter rows) ∧
    (getCol r attn_col = none → r ∉ attentionFilter rows) ∧
    (getCol r manip_col = none → r ∉ manipulationFilter target rows) ∧
    (getCol r SHOPPING_COL = none → r ∉ frequencyFilter rows) := by
  refine ⟨rfl, ?_, ?_, ?_, ?_, ?_⟩ <;> intro h hmem <;>
    simp only [completionFilter, durationFilter, attentionFilter,
      manipulationFilter, frequencyFilter, List.mem_filter, h, optEq, optGe,
      optLe] at hmem <;> exact absurd hmem.2 (by simp)

/-- Witness for C5 at a concrete all-missing row. -/
theorem c5_missing_excluded_witness :
    to_numeric (RawCell.text "abc") = none ∧
    noneRow ∉ completionFilter [noneRow] ∧
    noneRow ∉ durationFilter [noneRow] ∧
    noneRow ∉ attentionFilter [noneRow] ∧
    noneRow ∉ manipulationFilter 5 [noneRow] ∧
    noneRow ∉ frequencyFilter [noneRow] :=
  ⟨(c5_missing_excluded [noneRow] noneRow "abc" 5).1,
   (c5_missing_excluded [noneRow] noneRow "abc" 5).2.1 rfl,
   (c5_missing_excluded [noneRow] noneRow "abc" 5).2.2.1 rfl,
   (c5_missing_excluded [noneRow] noneRow "abc" 5).2.2.2.1 rfl,
   (c5_missing_excluded [noneRow] noneRow "abc" 5).2.2.2.2.1 rfl,
   (c5_missing_excluded [noneRow] noneRow "abc" 5).2.2.2.2.2 rfl⟩

/-- Claim C6: for a row with all nine flow items present, the Flow
score is exactly the arithmetic mean of the nine item values (exact
rational equality, hence within any tolerance); for a row with at least
one item present, the score is the mean of the available items only. -/
theorem c6_flow_score_mean (r : Row) (a b c d e f g h i : ℚ)
    (hvals : itemVals r =
      [some a, some b, some c, some d, some e, some f, some g, some h, some i]) :
    flow_Score r = some ((a + b + c + d + e + f + g + h + i) / 9) ∧
    ∀ r2 : Row, availableVals r2 ≠ [] →
      flow_Score r2 = some ((availableVals r2).sum / ((availableVals r2).length : ℚ)) := by
  constructor
  · have hav : availableVals r = [a, b, c, d, e, f, g, h, i] := by
      simp [availableVals, hvals]
    simp only [flow_Score, hav]
    norm_num
    ring_nf
  · intro r2 h2
    simp only [flow_Score]
    rw [if_neg]
    simp [List.isEmpty_iff, h2]

/-- Witness for C6: a fully-answered row scores 41/9 and a row with the
single item 3 scores 3. -/
theorem c6_flow_score_mean_witness :
    flow_Score fullItemsRow = some ((1 + 2 + 3 + 4 + 5 + 6 + 7 + 6 + 7) / 9) ∧
    flow_Score oneItemRow = some 3 := by
  have h := c6_flow_score_mean fullItemsRow 1 2 3 4 5 6 7 6 7 rfl
  refine ⟨h.1, ?_⟩
  have h2 := h.2 oneItemRow (by decide)
  have hav : availableVals oneItemRow = [3] := rfl
  rw [hav] at h2
  simpa using h2

/-- Claim C9: the composite Flow score is computed over exactly the
nine item columns Q2_1..Q2_7, Q2_9, Q2_10; the attention-check column
Q2_8 is not among them, and changing the Q2_8 value of a row never changes
its Flow score. -/
theorem c9_attention_not_in_flow_items :
    flow_items = ["Q2_1", "Q2_2", "Q2_3", "Q2_4", "Q2_5", "Q2_6", "Q2_7",
      "Q2_9", "Q2_10"] ∧
    attn_col ∉ flow_items ∧
    ∀ (r : Row) (v : Option ℚ), flow_Score { r with q2_8 := v } = flow_Score r := by
  refine ⟨rfl, by decide, ?_⟩
  intro r v
  rfl

/-- Claim C8: applying the completion filter then the duration filter
yields the same surviving row set as applying them in the other order,
for every input row set (both are independent per-row predicates). -/
theorem c8_completion_duration_commute (rows : List Row) :
    durationFilter (completionFilter rows) = completionFilter (durationFilter rows) := by
  simp only [durationFilter, completionFilter, List.filter_filter]
  refine List.filter_congr ?_
  intro x _
  cases h1 : optEq (getCol x "Finished") 1 <;>
    cases h2 : optGe (getCol x "Duration (in seconds)") MIN_DURATION_SECONDS <;>
      rfl

/-- Claim C2: if the final sample of either condition has fewer than 2 rows,
the run prints the explicit insufficient-data message, invokes neither
hypothesis test, and ends gracefully with no exception; a hypothesis
test is invoked only when both samples have size ≥ 2 (and when they do
and the Mann–Whitney call itself does not raise, both are invoked). -/
theorem c2_insufficient_data_guard (inp : RunInput) :
    ((run_silent inp.silentRaws).1.length < 2 ∨ (run_audio inp.audioRaws).1.length < 2 →
      (runScript inp).insufficientMsg = true ∧ (runScript inp).h1Invoked = false ∧
      (runScript inp).h2Invoked = false ∧ (runScript inp).mainCaught = false ∧
      (runScript inp).outcome = Outcome.graceful) ∧
    ((runScript inp).h1Invoked = true ∨ (runScript inp).h2Invoked = true →
      2 ≤ (run_silent inp.silentRaws).1.length ∧
      2 ≤ (run_audio inp.audioRaws).1.length) ∧
    (2 ≤ (run_silent inp.silentRaws).1.length →
     2 ≤ (run_audio inp.audioRaws).1.length → inp.h1Raises = false →
      (runScript inp).h1Invoked = true ∧ (runScript inp).h2Invoked = true) := by
  by_cases h : (run_silent inp.silentRaws).1.length < 2 ∨
      (run_audio inp.audioRaws).1.length < 2
  · refine ⟨fun _ => ?_, fun hinv => ?_, fun hs ha _ => ?_⟩
    · simp [runScript, h]
    · exfalso
      simp [runScript, h] at hinv
    · exfalso
      omega
  · refine ⟨fun hlt => absurd hlt h, fun _ => ?_, fun _ _ hre => ?_⟩
    · omega
    · simp [runScript, h, hre]

/-- Witness for C2 at empty input tables. -/
theorem c2_insufficient_data_guard_witness :
    (runScript c2Input).insufficientMsg = true ∧
    (runScript c2Input).h1Invoked = false ∧
    (runScript c2Input).h2Invoked = false ∧
    (runScript c2Input).mainCaught = false ∧
    (runScript c2Input).outcome = Outcome.graceful :=
  (c2_insufficient_data_guard c2Input).1 (by decide)

/-- Claim C7 counterexample: with twelve valid respondents and an
exception raised in the interaction plotting of the moderator section, the
run ends in an unhandled crash — the error is not caught and the run
does not end gracefully. -/
theorem c7_counterexample :
    c7Input.moderatorUnguardedRaises = true ∧
    (runScript c7Input).outcome = Outcome.unhandledCrash := by decide

/-- Claim C7 (amended): every error raised inside the main `try` block
(cleaning, the hypothesis tests, the violin plot) is caught by its
`except`, and an error in either moderator model fit is caught by that
own except block of that model; but the variable preparation of the
moderator section
and interaction plotting are outside every `try`, so the run ends in an
unhandled crash exactly when the moderator section runs and one of its
unguarded statements raises. -/
theorem c7_amended_crash_iff_moderator_plot (inp : RunInput) :
    (runScript inp).outcome = Outcome.unhandledCrash ↔
      (runScript inp).moderatorRan = true ∧ inp.moderatorUnguardedRaises = true := by
  by_cases h : (run_silent inp.silentRaws).1.length < 2 ∨
      (run_audio inp.audioRaws).1.length < 2
  · simp [runScript, h]
  · cases hm : decide (10 < (run_silent inp.silentRaws).1.length +
        (run_audio inp.audioRaws).1.length) <;>
      cases hf : inp.moderatorUnguardedRaises <;>
        simp [runScript, h, hm, hf]

/-- Claim C10: the moderator analysis runs exactly when the combined
table exists and has strictly more than 10 rows; when both conditions
pass filtering with size ≥ 2 but the combined size is at most 10, H1
and H2 are invoked while the whole moderator analysis is skipped with
no message. -/
theorem c10_moderator_gate (inp : RunInput) :
    ((runScript inp).moderatorRan = true ↔
      (runScript inp).dfAllSet = true ∧ 10 < (runScript inp).dfAllLen) ∧
    (2 ≤ (run_silent inp.silentRaws).1.length →
     2 ≤ (run_audio inp.audioRaws).1.length →
     (run_silent inp.silentRaws).1.length + (run_audio inp.audioRaws).1.length ≤ 10 →
     inp.h1Raises = false →
      (runScript inp).h1Invoked = true ∧ (runScript inp).h2Invoked = true ∧
      (runScript inp).moderatorRan = false ∧ (runScript inp).moderatorMsg = false) := by
  by_cases h : (run_silent inp.silentRaws).1.length < 2 ∨
      (run_audio inp.audioRaws).1.length < 2
  · refine ⟨?_, fun hs ha _ _ => absurd h (by omega)⟩
    simp [runScript, h]
  · refine ⟨?_, fun _ _ hle hre => ?_⟩
    · cases hm : decide (10 < (run_silent inp.silentRaws).1.length +
          (run_audio inp.audioRaws).1.length) <;>
        simp only [decide_eq_true_eq, decide_eq_false_iff_not] at hm <;>
          simp [runScript, h, hm]
    · have hm : ¬ (10 < (run_silent inp.silentRaws).1.length +
          (run_audio inp.audioRaws).1.length) := by omega
      simp [runScript, h, hm, hre]

/-- Witness for C10 at two valid respondents per condition. -/
theorem c10_moderator_gate_witness :
    (runScript c10Input).h1Invoked = true ∧ (runScript c10Input).h2Invoked = true ∧
    (runScript c10Input).moderatorRan = false ∧
    (runScript c10Input).moderatorMsg = false :=
  (c10_moderator_gate c10Input).2 (by decide) (by decide) (by decide) rfl

end MasterAnalysis
